import Mathlib

/-!
Verification of the tenant-scoped access-control and row-level isolation
layer of the EduERP school-management application: the permission/role
mixins (`apps/core/permissions/mixins.py`) and the thread-local tenant
context store (`apps/core/utils/tenant.py`), shallowly embedded in Lean.
-/

namespace EduERP

/-- Tenant identifiers. -/
abbrev Tenant := Nat

/-! ## Tenant context store (`apps/core/utils/tenant.py`)

Python keeps the tenant in `_thread_locals.tenant`.  The attribute may be
absent (`getattr` falls back to `None`) or set to any value, including
`None` itself.  We model the store as `Option (Option Tenant)`: `none`
when the attribute is absent, `some v` when it is set to `v`. -/

/-- State of the thread-local store for one execution context. -/
abbrev TLS := Option (Option Tenant)

/-- `set_current_tenant(tenant)`: stores `tenant` in thread-local storage,
overwriting any previous value. -/
def set_current_tenant (t : Option Tenant) (_s : TLS) : TLS := some t

/-- `get_current_tenant()`: `getattr(_thread_locals, 'tenant', None)`. -/
def get_current_tenant (s : TLS) : Option Tenant :=
  match s with
  | some v => v
  | none => none

/-- `clear_tenant()`: `delattr` only when the attribute is present. -/
def clear_tenant (s : TLS) : TLS :=
  match s with
  | some _ => none
  | none => s

/-- `tenant_context(tenant)`: records the old value, sets the new one,
runs the body, and restores the old value in a `finally` block.  The body
is any state transformer over the store that may additionally raise an
exception of type `E` (`none` = returned normally, `some e` = raised). -/
def tenant_context {E : Type} (t : Option Tenant) (body : TLS → TLS × Option E)
    (s : TLS) : TLS × Option E :=
  let old := get_current_tenant s
  let s1 := set_current_tenant t s
  let p := body s1
  (set_current_tenant old p.1, p.2)

/-! ## Principals and resources

The mixins consult `request.user` (authentication flag, superuser flag,
role tag, permission claims via `has_perm`, owning tenant) and domain
objects carrying a `tenant` field and optional `user` / `created_by`
owner references. -/

/-- The authenticated (or anonymous) actor behind a request. -/
structure User where
  id : Nat
  is_authenticated : Bool
  is_superuser : Bool
  role : String
  /-- permissions granted to the user; `has_perm(p)` tests membership. -/
  perms : List String
  /-- object-level permission grants: pairs of (permission, object id);
  `has_perm(p, obj)` tests membership. -/
  obj_perms : List (String × Nat)
  tenant : Option Tenant
deriving DecidableEq, Repr

/-- `user.has_perm(perm)`. -/
def User.has_perm (u : User) (p : String) : Bool := u.perms.contains p

/-- A tenant-scoped domain object, with the attributes the mixins read. -/
structure Obj where
  id : Nat
  tenant : Option Tenant
  /-- `getattr(obj, 'user', None)`: owning user id, when present. -/
  user : Option Nat
  /-- `getattr(obj, 'created_by', None)`: creating user id, when present. -/
  created_by : Option Nat
deriving DecidableEq, Repr

/-- `user.has_perm(perm, obj)`: object-level permission lookup. -/
def User.has_perm_obj (u : User) (p : String) (o : Obj) : Bool :=
  u.obj_perms.contains (p, o.id)

/-! ## PermissionRequiredMixin -/

/-- The `permission_required` class attribute: Python allows a single
string or a list/tuple of strings. -/
inductive PermSpec where
  | single (s : String)
  | many (l : List String)
deriving DecidableEq, Repr

/-- Configuration of `PermissionRequiredMixin` (class attributes). -/
structure PermCfg where
  permission_required : Option PermSpec := none
  permission_required_any : Option (List String) := none
deriving DecidableEq, Repr

/-- The fall-through of `has_permission` after the `permission_required`
block: `if self.permission_required_any: return any(...)` then
`return True`.  Python truthiness: `None` and `[]` are falsy. -/
def checkPermAny (cfg : PermCfg) (u : User) : Bool :=
  match cfg.permission_required_any with
  | some l => if !l.isEmpty then l.any u.has_perm else true
  | none => true

/-- `PermissionRequiredMixin.has_permission`.  Mirrors the source order:
authentication, superuser bypass, `permission_required` (string: that
permission; list: all of them), then `permission_required_any` (any one),
then default allow.  An empty string or empty list is falsy in Python, so
its branch is skipped. -/
def has_permission (cfg : PermCfg) (u : User) : Bool :=
  if !u.is_authenticated then false
  else if u.is_superuser then true
  else
    match cfg.permission_required with
    | some (.single s) => if s ≠ "" then u.has_perm s else checkPermAny cfg u
    | some (.many l) => if !l.isEmpty then l.all u.has_perm else checkPermAny cfg u
    | none => checkPermAny cfg u

/-! ## RoleRequiredMixin -/

/-- The `roles_required` class attribute: a single role string or a
list/tuple of role strings. -/
inductive RoleSpec where
  | single (s : String)
  | many (l : List String)
deriving DecidableEq, Repr

/-- Configuration of `RoleRequiredMixin` (class attributes). -/
structure RoleCfg where
  roles_required : Option RoleSpec := none
  roles_required_any : Option (List String) := none
  min_role_level : Option Nat := none
deriving DecidableEq, Repr

/-- Modelled from the spec: the fixed role hierarchy table
`ROLE_HIERARCHY` lives in `apps/users/models.py`, which is not among the
provided sources; the spec gives the ordering
super-admin > admin > staff > teacher > student > guardian, mapping each
role tag to an integer level. -/
def ROLE_HIERARCHY : List (String × Nat) :=
  [("super-admin", 6), ("admin", 5), ("staff", 4),
   ("teacher", 3), ("student", 2), ("guardian", 1)]

/-- `ROLE_HIERARCHY.get(role, 0)`. -/
def roleLevel (r : String) : Nat :=
  (ROLE_HIERARCHY.lookup r).getD 0

/-- The `min_role_level` block of `has_role_permission`:
`if self.min_role_level:` (so `None` and `0` are falsy) then
`user_level >= self.min_role_level`, else the trailing `return True`. -/
def checkMinRoleLevel (cfg : RoleCfg) (u : User) : Bool :=
  match cfg.min_role_level with
  | some m => if m ≠ 0 then decide (roleLevel u.role ≥ m) else true
  | none => true

/-- The `roles_required_any` block: `if self.roles_required_any:
return user.role in self.roles_required_any`, else fall through to the
minimum-level check. -/
def checkRoleAny (cfg : RoleCfg) (u : User) : Bool :=
  match cfg.roles_required_any with
  | some l => if !l.isEmpty then l.contains u.role else checkMinRoleLevel cfg u
  | none => checkMinRoleLevel cfg u

/-- `RoleRequiredMixin.has_role_permission`.  Mirrors the source order:
authentication, superuser bypass, `roles_required` (string: equality;
list: membership), `roles_required_any`, `min_role_level`, default
allow. -/
def has_role_permission (cfg : RoleCfg) (u : User) : Bool :=
  if !u.is_authenticated then false
  else if u.is_superuser then true
  else
    match cfg.roles_required with
    | some (.single s) => if s ≠ "" then u.role == s else checkRoleAny cfg u
    | some (.many l) => if !l.isEmpty then l.contains u.role else checkRoleAny cfg u
    | none => checkRoleAny cfg u

/-! ## TenantAccessMixin -/

/-- Configuration of `TenantAccessMixin`; `allow_superuser` defaults to
`True` in the source. -/
structure TenantCfg where
  allow_superuser : Bool := true
deriving DecidableEq, Repr

/-- `TenantAccessMixin.get_queryset`: superusers (when allowed) see the
unfiltered queryset; everyone else gets
`queryset.filter(tenant=user.tenant)`. -/
def tenantGetQueryset (cfg : TenantCfg) (u : User) (qs : List Obj) : List Obj :=
  if u.is_superuser && cfg.allow_superuser then qs
  else qs.filter (fun o => o.tenant == u.tenant)

/-- The error raised by a single-object fetch. -/
inductive FetchError where
  | http404
deriving DecidableEq, Repr

/-- `TenantAccessMixin.get_object`: returns the fetched object, but
raises `Http404` when its tenant differs from the user's tenant (unless
superuser bypass applies). -/
def tenantGetObject (cfg : TenantCfg) (u : User) (obj : Obj) :
    Except FetchError Obj :=
  if u.is_superuser && cfg.allow_superuser then .ok obj
  else if obj.tenant ≠ u.tenant then .error .http404
  else .ok obj

/-! ## ObjectPermissionMixin -/

/-- Configuration of `ObjectPermissionMixin` (class attribute). -/
structure ObjCfg where
  object_permission_required : Option String := none
deriving DecidableEq, Repr

/-- The default ownership test of `has_object_permission`:
`getattr(obj, 'user', None) == user or getattr(obj, 'created_by', None)
== user`. -/
def defaultOwnership (u : User) (o : Obj) : Bool :=
  (o.user == some u.id) || (o.created_by == some u.id)

/-- `ObjectPermissionMixin.has_object_permission`: superuser bypass,
then an explicit object-level permission lookup when
`object_permission_required` is truthy, otherwise the default ownership
test. -/
def has_object_permission (cfg : ObjCfg) (u : User) (o : Obj) : Bool :=
  if u.is_superuser then true
  else
    match cfg.object_permission_required with
    | some p => if p ≠ "" then u.has_perm_obj p o else defaultOwnership u o
    | none => defaultOwnership u o

/-- Classification of the outcome of a single-object request. -/
inductive Outcome where
  | ok
  | notFound
  | forbidden
deriving DecidableEq, Repr

/-- `ObjectPermissionMixin.dispatch` on a view that also mixes in
`TenantAccessMixin`: `get_object` may raise `Http404` (surfacing as
not-found); if the fetched object fails `has_object_permission`, the
source raises `PermissionDenied` (surfacing as forbidden). -/
def objectDispatch (tcfg : TenantCfg) (ocfg : ObjCfg) (u : User)
    (obj : Obj) : Outcome :=
  match tenantGetObject tcfg u obj with
  | .error .http404 => .notFound
  | .ok o => if has_object_permission ocfg u o then .ok else .forbidden

/-! ## RoleBasedViewMixin -/

/-- Configuration of `RoleBasedViewMixin`: both the permission and the
role class attributes. -/
structure RolePermCfg where
  perm : PermCfg := {}
  role : RoleCfg := {}
deriving DecidableEq, Repr

/-- `RoleBasedViewMixin.has_permission`: `has_role_permission` first,
failing fast, then the inherited `has_permission`. -/
def roleBasedHasPermission (cfg : RolePermCfg) (u : User) : Bool :=
  if !(has_role_permission cfg.role u) then false
  else has_permission cfg.perm u

/-! ## Concrete fixtures used by witnesses and counterexamples -/

/-- An ordinary authenticated staff member of tenant 2. -/
def uStaffT2 : User :=
  { id := 3, is_authenticated := true, is_superuser := false,
    role := "staff", perms := [], obj_perms := [], tenant := some 2 }

/-- A superuser whose own role, permissions and tenant mismatch every
requirement used in the superuser-bypass witness. -/
def uSuperMismatch : User :=
  { id := 1, is_authenticated := true, is_superuser := true,
    role := "guardian", perms := [], obj_perms := [], tenant := some 1 }

/-- An object belonging to tenant 2, owned by nobody. -/
def objT2 : Obj := { id := 7, tenant := some 2, user := none, created_by := none }

/-- An object belonging to tenant 1, owned by nobody. -/
def objT1 : Obj := { id := 8, tenant := some 1, user := none, created_by := none }

/-- Principal P1 of the spec scenario: tenant 1, not a superuser, no
object-level permission grants. -/
def p1T1 : User :=
  { id := 11, is_authenticated := true, is_superuser := false,
    role := "staff", perms := [], obj_perms := [], tenant := some 1 }

/-- Object O of the spec scenario: in tenant 1, owned and created by
principal P2 (user id 12), not by P1. -/
def objOwnedByP2 : Obj :=
  { id := 21, tenant := some 1, user := some 12, created_by := some 12 }

/-- An authenticated non-superuser holding permissions `p1` and `p2`. -/
def uPerms4 : User :=
  { id := 4, is_authenticated := true, is_superuser := false,
    role := "staff", perms := ["p1", "p2"], obj_perms := [],
    tenant := some 1 }

/-- An authenticated non-superuser staff member holding the permission
`app.change_thing`. -/
def uStaffPerm : User :=
  { id := 2, is_authenticated := true, is_superuser := false,
    role := "staff", perms := ["app.change_thing"], obj_perms := [],
    tenant := some 1 }

/-! # Theorems -/

/-- Claim C2: for every tenant value, every prior store state and every
body (including bodies that mutate the store or raise), after
`tenant_context` exits — normally or via an exception —
`get_current_tenant()` returns what it returned immediately before
entry. -/
theorem claim_c2_tenant_context_restores {E : Type} (t : Option Tenant)
    (body : TLS → TLS × Option E) (s : TLS) :
    get_current_tenant (tenant_context t body s).1 = get_current_tenant s := by
  simp [tenant_context, set_current_tenant, get_current_tenant]

/-- Claim C9: store laws — `get` after `set t` yields `t`; `get` after
`clear`, or on a store where nothing was ever set, yields the no-tenant
sentinel `none`; and `clear` on an empty store is a no-op (all operations
are total, hence never fail). -/
theorem claim_c9_store_laws (t : Option Tenant) (s : TLS) :
    get_current_tenant (set_current_tenant t s) = t ∧
    get_current_tenant (clear_tenant s) = none ∧
    get_current_tenant (none : TLS) = none ∧
    clear_tenant (none : TLS) = none := by
  refine ⟨rfl, ?_, rfl, rfl⟩
  cases s <;> rfl

/-- Claim C3: an authenticated superuser passes every evaluator check —
permission, role and object-ownership checks all allow, and the
tenant-scoped queryset (with `allow_superuser` at its source default
`True`) is left unrestricted — regardless of any role, permission or
tenant mismatch in the configuration or data. -/
theorem claim_c3_superuser_bypass (u : User) (pcfg : PermCfg) (rcfg : RoleCfg)
    (ocfg : ObjCfg) (tcfg : TenantCfg) (o : Obj) (qs : List Obj)
    (hA : u.is_authenticated = true) (hS : u.is_superuser = true)
    (hT : tcfg.allow_superuser = true) :
    has_permission pcfg u = true ∧
    has_role_permission rcfg u = true ∧
    has_object_permission ocfg u o = true ∧
    tenantGetQueryset tcfg u qs = qs := by
  simp [has_permission, has_role_permission, has_object_permission,
    tenantGetQueryset, hA, hS, hT]

theorem claim_c3_witness :
    has_permission { permission_required := some (.single "app.view_thing") }
        uSuperMismatch = true ∧
    has_role_permission { roles_required := some (.single "admin") }
        uSuperMismatch = true ∧
    has_object_permission {} uSuperMismatch objT2 = true ∧
    tenantGetQueryset {} uSuperMismatch [objT2] = [objT2] :=
  claim_c3_superuser_bypass uSuperMismatch
    { permission_required := some (.single "app.view_thing") }
    { roles_required := some (.single "admin") } {} {} objT2 [objT2]
    rfl rfl rfl

/-- Claim C5: under a combined requirement declaring both a required role
`x` and a required permission `y`, an authenticated non-superuser whose
role is not `x` is denied even though they hold permission `y` — the role
check runs first and short-circuits the permission check. -/
theorem claim_c5_role_short_circuit (u : User) (x y : String)
    (hA : u.is_authenticated = true) (hS : u.is_superuser = false)
    (hx : x ≠ "") (hr : u.role ≠ x) (_hy : u.has_perm y = true) :
    roleBasedHasPermission
      { perm := { permission_required := some (.single y) },
        role := { roles_required := some (.single x) } } u = false := by
  simp [roleBasedHasPermission, has_role_permission, hA, hS, hx, hr]

theorem claim_c5_witness :
    roleBasedHasPermission
      { perm := { permission_required := some (.single "app.change_thing") }
        , role := { roles_required := some (.single "admin") } }
      uStaffPerm = false :=
  claim_c5_role_short_circuit uStaffPerm
    "admin" "app.change_thing" rfl rfl (by decide) (by decide) (by decide)

/-- Claim C6: for an authenticated non-superuser under a declared
minimum-role-level requirement `m` (and no other role requirement), the
check grants access iff the hierarchy level of the principal's role is at
least `m`; hence it is monotonic — for roles `a`, `b` with
`level a ≥ level b`, a requirement of at least `level b` admits every
principal with role `a`. -/
theorem claim_c6_min_level (u : User) (m : Nat) (a b : String)
    (hA : u.is_authenticated = true) (hS : u.is_superuser = false)
    (ha : u.role = a) (hab : roleLevel a ≥ roleLevel b) :
    (has_role_permission { min_role_level := some m } u = true ↔
      roleLevel u.role ≥ m) ∧
    has_role_permission { min_role_level := some (roleLevel b) } u = true := by
  constructor
  · simp only [has_role_permission, checkRoleAny, checkMinRoleLevel, hA, hS]
    by_cases hm : m = 0
    · subst hm; simp
    · simp [hm]
  · simp only [has_role_permission, checkRoleAny, checkMinRoleLevel, hA, hS]
    by_cases hb : roleLevel b = 0
    · simp [hb]
    · simp [hb, ha, hab]

theorem claim_c6_witness :
    (has_role_permission { min_role_level := some 3 } uStaffT2 = true ↔
      roleLevel uStaffT2.role ≥ 3) ∧
    has_role_permission { min_role_level := some (roleLevel "teacher") }
      uStaffT2 = true :=
  claim_c6_min_level uStaffT2 3 "staff" "teacher" rfl rfl rfl (by decide)

/-- Claim C7: for an authenticated non-superuser — a single (non-empty)
`permission_required` string grants iff the principal holds it; a
non-empty `permission_required` list grants iff the principal holds all
listed permissions (in both cases for every value of
`permission_required_any`, showing it is not consulted); and when
`permission_required` is absent, a non-empty `permission_required_any`
grants iff the principal holds any listed permission. -/
theorem claim_c7_permission_forms (u : User) (s : String) (l la : List String)
    (anyv : Option (List String)) (hA : u.is_authenticated = true)
    (hS : u.is_superuser = false) (hs : s ≠ "") (hl : l ≠ []) (hla : la ≠ []) :
    (has_permission
      { permission_required := some (.single s)
        , permission_required_any := anyv } u = u.has_perm s) ∧
    (has_permission
      { permission_required := some (.many l)
        , permission_required_any := anyv } u = l.all u.has_perm) ∧
    (has_permission
      { permission_required := none
        , permission_required_any := some la } u = la.any u.has_perm) := by
  simp [has_permission, checkPermAny, hA, hS, hs, hl, hla]

theorem claim_c7_witness :
    (has_permission
      { permission_required := some (.single "p1")
        , permission_required_any := some ["zzz"] }
      uPerms4 = uPerms4.has_perm "p1") ∧
    (has_permission
      { permission_required := some (.many ["p1", "p2"])
        , permission_required_any := some ["zzz"] }
      uPerms4 = List.all ["p1", "p2"] uPerms4.has_perm) ∧
    (has_permission
      { permission_required := none
        , permission_required_any := some ["p3", "p1"] }
      uPerms4 = List.any ["p3", "p1"] uPerms4.has_perm) :=
  claim_c7_permission_forms uPerms4
    "p1" ["p1", "p2"] ["p3", "p1"] (some ["zzz"])
    rfl rfl (by decide) (by decide) (by decide)

/-- Claim C8: for every authenticated principal, a handler declaring no
role requirement and no permission requirement (every one of
`permission_required`, `permission_required_any`, `roles_required`,
`roles_required_any`, `min_role_level` at its absent default) is allowed:
the permission check, the role check and the combined check all return
`True`. -/
theorem claim_c8_default_allow (u : User) (hA : u.is_authenticated = true) :
    has_permission {} u = true ∧
    has_role_permission {} u = true ∧
    roleBasedHasPermission {} u = true := by
  simp [has_permission, has_role_permission, roleBasedHasPermission,
    checkPermAny, checkRoleAny, checkMinRoleLevel, hA]

theorem claim_c8_witness :
    has_permission {} uStaffT2 = true ∧
    has_role_permission {} uStaffT2 = true ∧
    roleBasedHasPermission {} uStaffT2 = true :=
  claim_c8_default_allow uStaffT2 rfl

/-- Claim C10: for an authenticated non-superuser, when
`permission_required` is absent and `permission_required_any` is the
empty list, the permission check returns allow — the empty list is falsy
in Python and falls through to the default, rather than being evaluated
as an empty disjunction. -/
theorem claim_c10_empty_any_allows (u : User) (hA : u.is_authenticated = true)
    (hS : u.is_superuser = false) :
    has_permission
      { permission_required := none
        , permission_required_any := some [] } u = true := by
  simp [has_permission, checkPermAny, hA, hS]

/-- Claim C1 as stated is false on the code: `get_queryset` filters by
`user.tenant`, not by the thread-local `get_current_tenant()`.  With the
thread-local current tenant set to tenant 1 and a non-superuser user
belonging to tenant 2, an object of tenant 2 — whose tenant differs from
`get_current_tenant()` — is nevertheless included in the tenant-scoped
queryset. -/
theorem claim_c1_counterexample :
    objT2.tenant ≠ get_current_tenant (some (some 1)) ∧
    uStaffT2.is_superuser = false ∧
    objT2 ∈ tenantGetQueryset {} uStaffT2 [objT2] := by
  decide

/-- Claim C1 (amended): for every non-superuser principal, the
tenant-scoped collection query filters by equality of the resource's
tenant field with the principal's own `tenant` attribute (`user.tenant`);
hence a resource whose tenant differs from the principal's tenant is
never included in the result. -/
theorem claim_c1_amended (cfg : TenantCfg) (u : User) (qs : List Obj) (R : Obj)
    (hS : u.is_superuser = false) (hT : R.tenant ≠ u.tenant) :
    R ∉ tenantGetQueryset cfg u qs ∧
    tenantGetQueryset cfg u qs = qs.filter (fun o => o.tenant == u.tenant) := by
  have hq : tenantGetQueryset cfg u qs =
      qs.filter (fun o => o.tenant == u.tenant) := by
    simp [tenantGetQueryset, hS]
  refine ⟨?_, hq⟩
  rw [hq]
  intro hmem
  have := (List.mem_filter.mp hmem).2
  exact hT (by simpa using this)

theorem claim_c1_amended_witness :
    uStaffT2.is_superuser = false ∧ objT1.tenant ≠ uStaffT2.tenant ∧
    (objT1 ∉ tenantGetQueryset {} uStaffT2 [objT1, objT2] ∧
      tenantGetQueryset {} uStaffT2 [objT1, objT2] =
        List.filter (fun o => o.tenant == uStaffT2.tenant) [objT1, objT2]) :=
  ⟨by decide, by decide,
    claim_c1_amended {} uStaffT2 [objT1, objT2] objT1 (by decide) (by decide)⟩

/-- Claim C4 as stated is false on the code: in the spec's own scenario —
principal P1 of tenant 1 requests an object of tenant 1 owned by P2,
where P1 lacks object-level permission — `ObjectPermissionMixin.dispatch`
raises `PermissionDenied`, so the denial is classified forbidden, not
not-found. -/
theorem claim_c4_counterexample :
    objectDispatch {} {} p1T1 objOwnedByP2 = .forbidden ∧
    Outcome.forbidden ≠ Outcome.notFound := by
  decide

/-- Claim C4 (amended): for a non-superuser principal, a single-object
request is classified not-found exactly when the object's tenant differs
from the principal's tenant (`get_object` raises `Http404`); when the
object is tenant-accessible but the object-ownership check fails, the
denial is classified forbidden (`PermissionDenied`), not not-found. -/
theorem claim_c4_amended (tcfg : TenantCfg) (ocfg : ObjCfg) (u : User)
    (obj : Obj) (hS : u.is_superuser = false) :
    objectDispatch tcfg ocfg u obj =
      (if obj.tenant ≠ u.tenant then .notFound
       else if has_object_permission ocfg u obj then .ok else .forbidden) := by
  simp only [objectDispatch, tenantGetObject, hS, Bool.false_and, if_false]
  by_cases h : obj.tenant = u.tenant <;> simp [h]

theorem claim_c4_amended_witness :
    p1T1.is_superuser = false ∧
    objectDispatch {} {} p1T1 objOwnedByP2 =
      (if objOwnedByP2.tenant ≠ p1T1.tenant then .notFound
       else if has_object_permission {} p1T1 objOwnedByP2 then .ok
       else .forbidden) :=
  ⟨by decide, claim_c4_amended {} {} p1T1 objOwnedByP2 (by decide)⟩

theorem claim_c10_witness :
    has_permission
      { permission_required := none
        , permission_required_any := some [] } uStaffT2 = true :=
  claim_c10_empty_any_allows uStaffT2 rfl rfl

end EduERP
